import Mathlib

/-!
Shallow embedding of the Valhalla OpenCTI knowledge importer
(`src/valhalla/src/valhalla/knowledge.py`).

External collaborators (the Valhalla feed client, the MITRE enterprise-attack
download, and the OpenCTI graph-store API) are modelled by an `Env` of oracle
functions; every call the importer makes against the graph store is recorded in
a trace of `Request` values, and every log call in a trace of `LogEntry`
values.  Python exceptions that the source catches are modelled by `Except`
results of the corresponding oracle; exceptions the source does not catch
(the `IndexError` on `external_references[0]` and the `NameError` on the unbound
`indicator` local) surface as `Except.error` results of the embedded function.
-/

namespace Valhalla

/-- One entry of a STIX object's `external_references` list; the
`external_id` field may be absent (`none`). -/
structure ExternalReference where
  external_id : Option String
deriving DecidableEq

/-- A MITRE enterprise-attack bundle object, restricted to the fields the
importer reads (`obj.id`, `obj.type`, `obj.external_references`). -/
structure TaxonomyObject where
  id : String
  type : String
  external_references : List ExternalReference
deriving DecidableEq

/-- One Valhalla rule from the parsed `ApiResponse`, restricted to the fields
the importer reads. -/
structure YaraRule where
  name : String
  cti_description : String
  content : String
  cti_date : String
  score : Int
  tags : List String
  reference : String
deriving DecidableEq

/-- A request issued against the OpenCTI graph store, one constructor per API
call the importer makes. -/
inductive Request where
  | createIndicator (name description pattern_type indicator_pattern marking
      main_observable_type createdByRef valid_from : String) (score : Int)
      (update detection : Bool)
  | createTag (tag_type value color : String)
  | addTag (id tag_id : String)
  | createExternalReference (source_name url description : String)
  | addExternalReference (id external_reference_id : String)
  | createRelationship (fromType fromId toType toId relationship_type
      description : String)
  | readAttackPattern (id : String)
  | readIntrusionSet (id : String)
deriving DecidableEq

/-- A log line, split by severity as in `helper.log_info` / `helper.log_error`. -/
inductive LogEntry where
  | info (msg : String)
  | error (msg : String)
deriving DecidableEq

/-- The observable side effects of a piece of importer code: graph-store
requests and log lines, each in program order. -/
structure Effects where
  requests : List Request
  logs : List LogEntry
deriving DecidableEq

def Effects.nil : Effects := ⟨[], []⟩

def Effects.append (a b : Effects) : Effects :=
  ⟨a.requests ++ b.requests, a.logs ++ b.logs⟩

/-- The importer's environment: instance configuration plus oracles for every
external call.  `attack_data` is the joint outcome of `requests.get` and
`StixEnterpriseAttack.parse_obj`; `rules_json` the joint outcome of
`get_rules_json` and `ApiResponse.parse_obj`; `indicator_create` the outcome of
`helper.api.indicator.create` (the returned id, or the exception message);
`urlparse` returns `geturl()` of the parse result or the parse exception. -/
structure Env where
  attack_data : Except String (List TaxonomyObject)
  rules_json : Except String (List YaraRule)
  indicator_create : YaraRule → Except String String
  tag_create : String → String
  external_reference_create : String → String → String
  attack_pattern_read : String → Bool
  intrusion_set_read : String → Bool
  urlparse : String → Except String String
  now : Nat
  update_data : Bool
  default_marking_id : String
  organization_id : String

/-- The `_ATTACK_MAPPING` dict.  Insertion appends and lookup takes the last
matching entry, which gives exactly the Python dict's `d[k] = v` / `d.get(k)`
behaviour while keeping insertion history visible. -/
abbrev AttackMapping := List (String × String)

def mget (m : AttackMapping) (k : String) : Option String :=
  (m.reverse.find? (fun p => p.1 == k)).map Prod.snd

def mset (m : AttackMapping) (k v : String) : AttackMapping :=
  m ++ [(k, v)]

/-- The opaque checkpoint mapping `run` receives and returns. -/
abbrev StateMap := List (String × Nat)

def KNOWLEDGE_IMPORTER_STATE : String := "knowledge_importer_state"

/-- Embeds `re.search("^T\\d{4}$", tag)` and `re.search("^G\\d{4}$", tag)`: the tag is
exactly the letter `c` followed by four digits.  (Python's `$` would also
accept one trailing newline and `\d` any Unicode digit; feed tags are plain
ASCII identifiers without newlines, where the two coincide.) -/
def matchesCode (c : Char) (tag : String) : Bool :=
  match tag.toList with
  | [c0, d1, d2, d3, d4] =>
      c0 == c && d1.isDigit && d2.isDigit && d3.isDigit && d4.isDigit
  | _ => false

/-- Embeds `_add_intrusion_set_indicator_by_external_id`. -/
def add_intrusion_set_indicator_by_external_id (env : Env) (m : AttackMapping)
    (external_id indicator_id : String) : Effects :=
  match mget m external_id with
  | none => ⟨[], [.info ("no intrusion_set found for " ++ external_id)]⟩
  | some intrusion_set_id =>
    if intrusion_set_id = "" then
      ⟨[], [.info ("no intrusion_set found for " ++ external_id)]⟩
    else if env.intrusion_set_read intrusion_set_id then
      ⟨[.readIntrusionSet intrusion_set_id,
        .createRelationship "Indicator" indicator_id "Intrusion-Set"
          intrusion_set_id "indicates" "Yara Rule from Valhalla API"], []⟩
    else
      ⟨[.readIntrusionSet intrusion_set_id],
       [.info ("intrusion set " ++ intrusion_set_id ++
         " not found in OpenCTI. Is the mitre connector configured and running?")]⟩

/-- Embeds `_add_attack_pattern_indicator_by_external_id`. -/
def add_attack_pattern_indicator_by_external_id (env : Env) (m : AttackMapping)
    (external_id indicator_id : String) : Effects :=
  match mget m external_id with
  | none => ⟨[], [.info ("no attack_pattern found for " ++ external_id)]⟩
  | some attack_pattern_id =>
    if attack_pattern_id = "" then
      ⟨[], [.info ("no attack_pattern found for " ++ external_id)]⟩
    else if env.attack_pattern_read attack_pattern_id then
      ⟨[.readAttackPattern attack_pattern_id,
        .createRelationship "Indicator" indicator_id "Attack-Pattern"
          attack_pattern_id "indicates" "Yara Rule from Valhalla API"], []⟩
    else
      ⟨[.readAttackPattern attack_pattern_id],
       [.info ("attack pattern " ++ attack_pattern_id ++
         " not found in OpenCTI. Is the mitre connector configured and running?")]⟩

/-- Embeds `_add_tags_for_indicator`. -/
def add_tags_for_indicator (env : Env) (m : AttackMapping)
    (tags : List String) (indicator_id : String) : Effects :=
  match tags with
  | [] => Effects.nil
  | tag :: rest =>
    let e1 := if matchesCode 'T' tag then
        add_attack_pattern_indicator_by_external_id env m tag indicator_id
      else Effects.nil
    let e2 := if matchesCode 'G' tag then
        add_intrusion_set_indicator_by_external_id env m tag indicator_id
      else Effects.nil
    let e3 : Effects :=
      ⟨[.createTag "Valhalla" tag "#46beda",
        .addTag indicator_id (env.tag_create tag)], []⟩
    Effects.append (Effects.append (Effects.append e1 e2) e3)
      (add_tags_for_indicator env m rest indicator_id)

/-- The `for ref in refs` loop body of `_add_refs_for_id`. -/
def addRefsLoop (env : Env) (obj_id : String) : List String → Effects
  | [] => Effects.nil
  | ref :: rest =>
    if ref = "-" then addRefsLoop env obj_id rest
    else
      match env.urlparse ref with
      | .error _ =>
        Effects.append ⟨[], [.error ("error parsing ref url: " ++ ref)]⟩
          (addRefsLoop env obj_id rest)
      | .ok san_url =>
        Effects.append
          ⟨[.createExternalReference "Nextron Systems Valhalla API" san_url
              ("Rule Reference: " ++ san_url),
            .addExternalReference obj_id
              (env.external_reference_create san_url
                ("Rule Reference: " ++ san_url))], []⟩
          (addRefsLoop env obj_id rest)

/-- Embeds `_add_refs_for_id`.  The source guard is `refs == {} or obj_id == ""`;
`refs` is always a Python list there, and a list never equals the empty dict,
so only the `obj_id` test can fire. -/
def add_refs_for_id (env : Env) (refs : List String) (obj_id : String) : Effects :=
  if obj_id = "" then Effects.nil else addRefsLoop env obj_id refs

/-- The `for yr in response.rules` loop of `_process_rules`.  `indicator` is
the value of the Python local `indicator` from the last successful
`indicator.create`, `none` while it is still unbound; reading it while unbound
raises the uncaught `NameError`.  A failed create is still a request issued to
the store (the call was made and raised). -/
def processLoop (env : Env) (m : AttackMapping) (indicator : Option String) :
    List YaraRule → Except String Effects
  | [] => .ok Effects.nil
  | yr :: rest =>
    let attempt : Effects :=
      ⟨[.createIndicator yr.name yr.cti_description "yara" yr.content
          env.default_marking_id "File-SHA256" env.organization_id yr.cti_date
          yr.score env.update_data true], []⟩
    match env.indicator_create yr with
    | .ok new_id =>
      let eff := Effects.append (add_refs_for_id env [yr.reference] new_id)
        (add_tags_for_indicator env m yr.tags new_id)
      (processLoop env m (some new_id) rest).map
        (fun e => Effects.append (Effects.append attempt eff) e)
    | .error err =>
      match indicator with
      | none => .error "NameError: name indicator is not defined"
      | some stale_id =>
        let logged := Effects.append attempt
          ⟨[], [.error ("error creating indicator: " ++ err)]⟩
        let eff := Effects.append (add_refs_for_id env [yr.reference] stale_id)
          (add_tags_for_indicator env m yr.tags stale_id)
        (processLoop env m (some stale_id) rest).map
          (fun e => Effects.append (Effects.append logged eff) e)

/-- Embeds `_process_rules`.  A fetch or schema-validation failure is caught, logged
and ends the method; an uncaught exception in the loop propagates as
`.error`. -/
def process_rules (env : Env) (m : AttackMapping) : Except String Effects :=
  match env.rules_json with
  | .error err => .ok ⟨[], [.error ("error downloading rules: " ++ err)]⟩
  | .ok rules => processLoop env m none rules

/-- The `for obj in response.objects` loop of `_build_attack_group_mapping`.
`obj.external_references[0]` on an empty list raises an uncaught `IndexError`;
the insert condition is Python truthiness of `external_id` and `obj.id`. -/
def buildLoop (m : AttackMapping) : List TaxonomyObject → Except String AttackMapping
  | [] => .ok m
  | obj :: rest =>
    if obj.type = "attack-pattern" ∨ obj.type = "intrusion-set" then
      match obj.external_references.head? with
      | none => .error "IndexError: list index out of range"
      | some r =>
        match r.external_id with
        | none => buildLoop m rest
        | some e =>
          if e ≠ "" ∧ obj.id ≠ "" then buildLoop (mset m e obj.id) rest
          else buildLoop m rest
    else buildLoop m rest

/-- Embeds `_build_attack_group_mapping`.  The `try` block covers only the download
and `parse_obj`; the object loop runs outside it, so its `IndexError`
propagates.  The method mutates the class-level `_ATTACK_MAPPING`, passed in
and returned here as explicit state. -/
def build_attack_group_mapping (env : Env) (m : AttackMapping) :
    Except String (AttackMapping × List LogEntry) :=
  match env.attack_data with
  | .error err => .ok (m, [.error ("error downloading attack data: " ++ err)])
  | .ok objs => (buildLoop m objs).map (fun mp => (mp, []))

/-- The value `run` produces when it returns normally: the new checkpoint, the
class-level mapping afterwards, and the run's effect traces. -/
structure RunResult where
  checkpoint : StateMap
  attack_mapping : AttackMapping
  requests : List Request
  logs : List LogEntry
deriving DecidableEq

/-- Embeds `KnowledgeImporter.run`.  (The source's first log line appends
`str(state)` to the message; the state value is the `state` argument and the
rendering is elided from the modelled message.) -/
def run (env : Env) (attack_mapping : AttackMapping) (state : StateMap) :
    Except String RunResult :=
  match build_attack_group_mapping env attack_mapping with
  | .error e => .error e
  | .ok (m, buildLogs) =>
    match process_rules env m with
    | .error e => .error e
    | .ok eff =>
      .ok { checkpoint := [(KNOWLEDGE_IMPORTER_STATE, env.now)]
          , attack_mapping := m
          , requests := eff.requests
          , logs := [.info "running Knowledge importer with state"] ++ buildLogs
              ++ eff.logs ++ [.info "knowledge importer completed"] }

/-! ## Concrete fixtures -/

/-- A default environment for concrete evaluations; individual scenarios
override the relevant fields. -/
def baseEnv : Env :=
  { attack_data := .ok []
  , rules_json := .ok []
  , indicator_create := fun _ => .ok "indicator--default"
  , tag_create := fun t => "tag--" ++ t
  , external_reference_create := fun _ _ => "external-reference--default"
  , attack_pattern_read := fun _ => true
  , intrusion_set_read := fun _ => true
  , urlparse := fun s => .ok s
  , now := 0
  , update_data := true
  , default_marking_id := "marking--tlp-white"
  , organization_id := "identity--nextron" }

/-- Feed-fetch failure scenario (C1). -/
def env1 : Env := { baseEnv with rules_json := .error "connection error", now := 1700000000 }

def state0 : StateMap := [(KNOWLEDGE_IMPORTER_STATE, 5)]

def ruleA2 : YaraRule :=
  { name := "ruleA", cti_description := "a", content := "rule-A-content"
  , cti_date := "2020-01-01", score := 50, tags := [], reference := "-" }

def ruleB2 : YaraRule :=
  { name := "ruleB", cti_description := "b", content := "rule-B-content"
  , cti_date := "2020-01-02", score := 60, tags := ["zeta"], reference := "-" }

/-- First-signature indicator-creation failure scenario (C2). -/
def env2 : Env :=
  { baseEnv with
    rules_json := .ok [ruleA2, ruleB2]
  , indicator_create := fun yr =>
      if yr.name = "ruleA" then .error "boom" else .ok "indicator--b" }

/-- Second-signature indicator-creation failure scenario (C3): the first
signature's create succeeds with id `indicator--a`, the second's fails. -/
def env3 : Env :=
  { baseEnv with
    rules_json := .ok [ruleA2, ruleB2]
  , indicator_create := fun yr =>
      if yr.name = "ruleB" then .error "boom" else .ok "indicator--a" }

def objOld : TaxonomyObject :=
  { id := "intrusion-set--old", type := "intrusion-set"
  , external_references := [{ external_id := some "G0099" }] }

/-- First run of the persistence scenario (C4): its dataset maps `G0099`. -/
def envA : Env := { baseEnv with attack_data := .ok [objOld] }

/-- Second run of the persistence scenario (C4): an empty dataset. -/
def envB : Env := baseEnv

/-- The class-level `_ATTACK_MAPPING` after a run with `envA`. -/
def mapAfterRunA : AttackMapping :=
  match run envA [] [] with
  | .ok r => r.attack_mapping
  | .error _ => []

def mapOld : AttackMapping := [("G0099", "intrusion-set--old")]

def objFirst : TaxonomyObject :=
  { id := "attack-pattern--first", type := "attack-pattern"
  , external_references := [{ external_id := some "T0001" }] }

def objSecond : TaxonomyObject :=
  { id := "attack-pattern--second", type := "attack-pattern"
  , external_references := [{ external_id := some "T0001" }] }

/-- Collision scenario (C5): two attack-patterns share external id `T0001`. -/
def env5 : Env := { baseEnv with attack_data := .ok [objFirst, objSecond] }

def map5 : AttackMapping :=
  [("T0001", "attack-pattern--first"), ("T0001", "attack-pattern--second")]

/-- Taxonomy-fetch failure scenario (C6). -/
def env6 : Env := { baseEnv with attack_data := .error "http 500" }

/-- Resolution scenario (C8): the store knows exactly `attack-pattern--abc`. -/
def env8 : Env :=
  { baseEnv with attack_pattern_read := fun i => i == "attack-pattern--abc" }

def map8 : AttackMapping := [("T1059", "attack-pattern--abc")]

/-- Reference scenario (C9): only `https://example.com/a` parses. -/
def env9 : Env :=
  { baseEnv with
    urlparse := fun s =>
      if s = "https://example.com/a" then .ok "https://example.com/a"
      else .error "ValueError" }

def objNoRefs : TaxonomyObject :=
  { id := "attack-pattern--x", type := "attack-pattern", external_references := [] }

/-- Unguarded-access scenario (C10): a recognized-type object with an empty
`external_references` list. -/
def envNoRefs : Env := { baseEnv with attack_data := .ok [objNoRefs] }

def objGood : TaxonomyObject :=
  { id := "attack-pattern--good", type := "attack-pattern"
  , external_references := [{ external_id := some "T4242" }] }

def envGood : Env := { baseEnv with attack_data := .ok [objGood] }

/-! ## Helper predicates and lemmas -/

/-- The mapping-build loop inserts the entry for external id `E` from object
`obj` exactly when: the type is recognized, the first external reference
carries external id `E` non-empty, and the object id is non-empty. -/
def contributesB (obj : TaxonomyObject) (E : String) : Bool :=
  (decide (obj.type = "attack-pattern" ∨ obj.type = "intrusion-set")) &&
  (match obj.external_references.head? with
   | some r => decide (r.external_id = some E ∧ E ≠ "" ∧ obj.id ≠ "")
   | none => false)

/-- A hygiene-label request: `tag.create` or `stix_entity.add_tag`. -/
def isLabelRequest : Request → Bool
  | .createTag _ _ _ => true
  | .addTag _ _ => true
  | _ => false

def isOkE {α : Type} : Except String α → Bool
  | .ok _ => true
  | .error _ => false

theorem mget_mset_self (m : AttackMapping) (k v : String) :
    mget (mset m k v) k = some v := by
  simp [mget, mset]

theorem mget_mset_ne (m : AttackMapping) (k v k' : String) (h : k' ≠ k) :
    mget (mset m k v) k' = mget m k' := by
  have hk : (k == k') = false := by
    simp only [beq_eq_false_iff_ne]
    exact Ne.symm h
  simp [mget, mset, hk]

theorem buildLoop_mget (E : String) (objs : List TaxonomyObject) :
    ∀ m m' : AttackMapping, buildLoop m objs = .ok m' →
    mget m' E = (match (objs.filter (fun o => contributesB o E)).getLast? with
      | some o => some o.id
      | none => mget m E) := by
  induction objs with
  | nil =>
    intro m m' h
    simp only [buildLoop] at h
    cases h
    rfl
  | cons obj rest ih =>
    intro m m' h
    rw [buildLoop] at h
    by_cases ht : obj.type = "attack-pattern" ∨ obj.type = "intrusion-set"
    · rw [if_pos ht] at h
      cases hh : obj.external_references.head? with
      | none => simp only [hh] at h; cases h
      | some r =>
        simp only [hh] at h
        cases hx : r.external_id with
        | none =>
          simp only [hx] at h
          have hnc : contributesB obj E = false := by simp [contributesB, hh, hx]
          rw [List.filter_cons_of_neg (by simp [hnc])]
          exact ih m m' h
        | some e =>
          simp only [hx] at h
          by_cases hcond : e ≠ "" ∧ obj.id ≠ ""
          · rw [if_pos hcond] at h
            by_cases hE : e = E
            · subst hE
              have hc : contributesB obj e = true := by
                simp [contributesB, hh, hx, ht, hcond.1, hcond.2]
              rw [List.filter_cons_of_pos (by simp [hc])]
              have hmix := ih (mset m e obj.id) m' h
              cases hfl : rest.filter (fun o => contributesB o e) with
              | nil =>
                rw [hfl] at hmix
                simp only [List.getLast?_nil] at hmix
                rw [List.getLast?_singleton]
                rw [hmix, mget_mset_self]
              | cons x xs =>
                rw [hfl] at hmix
                rw [List.getLast?_cons_cons]
                cases hgl : (x :: xs).getLast? with
                | none => exact absurd (List.getLast?_eq_none_iff.mp hgl) (by simp)
                | some y => rw [hgl] at hmix; rw [hmix]
            · have hnc : contributesB obj E = false := by
                simp [contributesB, hh, hx, hE]
              rw [List.filter_cons_of_neg (by simp [hnc])]
              have hmix := ih (mset m e obj.id) m' h
              rw [hmix]
              cases (rest.filter fun o => contributesB o E).getLast? with
              | none => exact mget_mset_ne m e obj.id E (fun hq => hE hq.symm)
              | some y => rfl
          · rw [if_neg hcond] at h
            have hnc : contributesB obj E = false := by
              by_cases hE : e = E
              · subst hE
                simp only [contributesB, hh, hx, Bool.and_eq_false_imp]
                intro _
                simp only [decide_eq_false_iff_not]
                intro hctr
                exact hcond ⟨hctr.2.1, hctr.2.2⟩
              · simp [contributesB, hh, hx, hE]
            rw [List.filter_cons_of_neg (by simp [hnc])]
            exact ih m m' h
    · rw [if_neg ht] at h
      have hnc : contributesB obj E = false := by simp [contributesB, ht]
      rw [List.filter_cons_of_neg (by simp [hnc])]
      exact ih m m' h

theorem buildLoop_extends (objs : List TaxonomyObject) :
    ∀ m m' : AttackMapping, buildLoop m objs = .ok m' →
    ∃ s, m' = m ++ s ∧
      ∀ p ∈ s, ∃ obj ∈ objs, contributesB obj p.1 = true ∧ obj.id = p.2 := by
  induction objs with
  | nil =>
    intro m m' h
    simp only [buildLoop] at h
    cases h
    exact ⟨[], by simp, by simp⟩
  | cons obj rest ih =>
    intro m m' h
    rw [buildLoop] at h
    by_cases ht : obj.type = "attack-pattern" ∨ obj.type = "intrusion-set"
    · rw [if_pos ht] at h
      cases hh : obj.external_references.head? with
      | none => simp only [hh] at h; cases h
      | some r =>
        simp only [hh] at h
        cases hx : r.external_id with
        | none =>
          simp only [hx] at h
          obtain ⟨s, hs, hp⟩ := ih m m' h
          exact ⟨s, hs, fun p hps =>
            (hp p hps).elim fun o ho => ⟨o, List.mem_cons_of_mem _ ho.1, ho.2⟩⟩
        | some e =>
          simp only [hx] at h
          by_cases hcond : e ≠ "" ∧ obj.id ≠ ""
          · rw [if_pos hcond] at h
            obtain ⟨s, hs, hp⟩ := ih (mset m e obj.id) m' h
            refine ⟨(e, obj.id) :: s, ?_, ?_⟩
            · rw [hs]; simp [mset]
            · intro p hps
              rcases List.mem_cons.mp hps with hps | hps
              · subst hps
                refine ⟨obj, List.mem_cons_self _ _, ?_, rfl⟩
                simp [contributesB, hh, hx, ht, hcond.1, hcond.2]
              · obtain ⟨o, ho, hco⟩ := hp p hps
                exact ⟨o, List.mem_cons_of_mem _ ho, hco⟩
          · rw [if_neg hcond] at h
            obtain ⟨s, hs, hp⟩ := ih m m' h
            exact ⟨s, hs, fun p hps =>
              (hp p hps).elim fun o ho => ⟨o, List.mem_cons_of_mem _ ho.1, ho.2⟩⟩
    · rw [if_neg ht] at h
      obtain ⟨s, hs, hp⟩ := ih m m' h
      exact ⟨s, hs, fun p hps =>
        (hp p hps).elim fun o ho => ⟨o, List.mem_cons_of_mem _ ho.1, ho.2⟩⟩

theorem buildLoop_total (objs : List TaxonomyObject)
    (hall : ∀ obj ∈ objs,
      (obj.type = "attack-pattern" ∨ obj.type = "intrusion-set") →
      obj.external_references ≠ []) :
    ∀ m, ∃ m', buildLoop m objs = .ok m' := by
  induction objs with
  | nil => intro m; exact ⟨m, rfl⟩
  | cons obj rest ih =>
    intro m
    have hrest : ∀ o ∈ rest,
        (o.type = "attack-pattern" ∨ o.type = "intrusion-set") →
        o.external_references ≠ [] :=
      fun o ho => hall o (List.mem_cons_of_mem _ ho)
    rw [buildLoop]
    by_cases ht : obj.type = "attack-pattern" ∨ obj.type = "intrusion-set"
    · rw [if_pos ht]
      cases hh : obj.external_references.head? with
      | none =>
        exact absurd (List.head?_eq_none_iff.mp hh)
          (hall obj (List.mem_cons_self _ _) ht)
      | some r =>
        simp only
        cases r.external_id with
        | none => exact ih hrest m
        | some e =>
          by_cases hcond : e ≠ "" ∧ obj.id ≠ ""
          · simp only [if_pos hcond]; exact ih hrest (mset m e obj.id)
          · simp only [if_neg hcond]; exact ih hrest m
    · rw [if_neg ht]; exact ih hrest m

theorem add_attack_pattern_no_label_request (env : Env) (m : AttackMapping)
    (t ind : String) :
    (add_attack_pattern_indicator_by_external_id env m t ind).requests.filter
      isLabelRequest = [] := by
  unfold add_attack_pattern_indicator_by_external_id
  cases mget m t with
  | none => rfl
  | some tid =>
    by_cases h1 : tid = "" <;> by_cases h2 : env.attack_pattern_read tid <;>
      simp [h1, h2, isLabelRequest]

theorem add_intrusion_set_no_label_request (env : Env) (m : AttackMapping)
    (t ind : String) :
    (add_intrusion_set_indicator_by_external_id env m t ind).requests.filter
      isLabelRequest = [] := by
  unfold add_intrusion_set_indicator_by_external_id
  cases mget m t with
  | none => rfl
  | some tid =>
    by_cases h1 : tid = "" <;> by_cases h2 : env.intrusion_set_read tid <;>
      simp [h1, h2, isLabelRequest]

/-! ## Claims -/

/-- C7: for every tag sequence resolved for an indicator, each tag produces
exactly one hygiene-label creation request carrying the tag's literal text
(`tag.create` with type `Valhalla` and color `#46beda`) and exactly one
attachment of that label to the indicator, regardless of whether the tag also
matched the attack-pattern or intrusion-set reference shape: the label-typed
subtrace of the tag-resolution effects is exactly the two requests per tag, in
tag order. -/
theorem every_tag_one_hygiene_label (env : Env) (m : AttackMapping)
    (tags : List String) (ind : String) :
    (add_tags_for_indicator env m tags ind).requests.filter isLabelRequest =
      tags.flatMap (fun tag =>
        [Request.createTag "Valhalla" tag "#46beda",
         Request.addTag ind (env.tag_create tag)]) := by
  induction tags with
  | nil => rfl
  | cons t rest ih =>
    have h1 : (if matchesCode 'T' t then
        add_attack_pattern_indicator_by_external_id env m t ind
      else Effects.nil).requests.filter isLabelRequest = [] := by
      split
      · exact add_attack_pattern_no_label_request env m t ind
      · rfl
    have h2 : (if matchesCode 'G' t then
        add_intrusion_set_indicator_by_external_id env m t ind
      else Effects.nil).requests.filter isLabelRequest = [] := by
      split
      · exact add_intrusion_set_no_label_request env m t ind
      · rfl
    simp only [add_tags_for_indicator, Effects.append, List.filter_append, h1,
      h2, ih, List.flatMap_cons, List.nil_append]
    rfl

/-- C8: for a tag matching the attack-pattern or intrusion-set shape, the
resolution handlers behave as follows.  If the mapping has no entry for the
tag, or maps it to the empty string, no request at all is issued (in
particular no relationship) and an informational outcome is logged.  If the
mapping yields a non-empty internal id, the store is asked to read that id;
an `indicates` relationship from the indicator to that id is requested exactly
when the read finds the entity, and when it does not, nothing is created and
an informational outcome is logged. -/
theorem typed_tag_resolution (env : Env) (m : AttackMapping) (t ind : String) :
    ((mget m t = none ∨ mget m t = some "") →
      add_attack_pattern_indicator_by_external_id env m t ind =
        ⟨[], [.info ("no attack_pattern found for " ++ t)]⟩ ∧
      add_intrusion_set_indicator_by_external_id env m t ind =
        ⟨[], [.info ("no intrusion_set found for " ++ t)]⟩) ∧
    (∀ tid, mget m t = some tid → tid ≠ "" →
      (add_attack_pattern_indicator_by_external_id env m t ind =
        if env.attack_pattern_read tid then
          ⟨[.readAttackPattern tid,
            .createRelationship "Indicator" ind "Attack-Pattern" tid
              "indicates" "Yara Rule from Valhalla API"], []⟩
        else
          ⟨[.readAttackPattern tid],
           [.info ("attack pattern " ++ tid ++
             " not found in OpenCTI. Is the mitre connector configured and running?")]⟩) ∧
      (add_intrusion_set_indicator_by_external_id env m t ind =
        if env.intrusion_set_read tid then
          ⟨[.readIntrusionSet tid,
            .createRelationship "Indicator" ind "Intrusion-Set" tid
              "indicates" "Yara Rule from Valhalla API"], []⟩
        else
          ⟨[.readIntrusionSet tid],
           [.info ("intrusion set " ++ tid ++
             " not found in OpenCTI. Is the mitre connector configured and running?")]⟩)) := by
  constructor
  · rintro (hm | hm) <;>
      exact ⟨by simp [add_attack_pattern_indicator_by_external_id, hm],
             by simp [add_intrusion_set_indicator_by_external_id, hm]⟩
  · intro tid hm hne
    exact ⟨by simp [add_attack_pattern_indicator_by_external_id, hm, hne],
           by simp [add_intrusion_set_indicator_by_external_id, hm, hne]⟩

/-- C8 witness: with the index mapping `T1059` to `attack-pattern--abc` and a
store that knows that id, resolution issues the read followed by exactly one
`indicates` relationship. -/
theorem typed_tag_resolution_witness :
    add_attack_pattern_indicator_by_external_id env8 map8 "T1059" "ind-1" =
      if env8.attack_pattern_read "attack-pattern--abc" then
        ⟨[.readAttackPattern "attack-pattern--abc",
          .createRelationship "Indicator" "ind-1" "Attack-Pattern"
            "attack-pattern--abc" "indicates" "Yara Rule from Valhalla API"], []⟩
      else
        ⟨[.readAttackPattern "attack-pattern--abc"],
         [.info ("attack pattern " ++ "attack-pattern--abc" ++
           " not found in OpenCTI. Is the mitre connector configured and running?")]⟩ :=
  ((typed_tag_resolution env8 map8 "T1059" "ind-1").2 "attack-pattern--abc"
    rfl (by decide)).1

/-- C9: when attaching references (to a non-empty target id), a reference equal
to the sentinel `-` is skipped silently, contributing no requests and no logs;
a reference whose URL parse fails contributes only an error log, while the
remaining references are still processed; and a reference whose URL parse
succeeds contributes exactly one external-reference creation request whose
description is `Rule Reference: ` concatenated with the reconstructed URL,
followed by one attachment of that reference to the target. -/
theorem reference_attachment (env : Env) (obj_id ref : String)
    (rest : List String) (h : obj_id ≠ "") :
    (ref = "-" →
      add_refs_for_id env (ref :: rest) obj_id = add_refs_for_id env rest obj_id) ∧
    (∀ e, env.urlparse ref = .error e → ref ≠ "-" →
      add_refs_for_id env (ref :: rest) obj_id =
        Effects.append ⟨[], [.error ("error parsing ref url: " ++ ref)]⟩
          (add_refs_for_id env rest obj_id)) ∧
    (∀ u, env.urlparse ref = .ok u → ref ≠ "-" →
      add_refs_for_id env (ref :: rest) obj_id =
        Effects.append
          ⟨[.createExternalReference "Nextron Systems Valhalla API" u
              ("Rule Reference: " ++ u),
            .addExternalReference obj_id
              (env.external_reference_create u ("Rule Reference: " ++ u))], []⟩
          (add_refs_for_id env rest obj_id)) := by
  refine ⟨?_, ?_, ?_⟩
  · intro href
    simp [add_refs_for_id, h, addRefsLoop, href]
  · intro e hp href
    simp [add_refs_for_id, h, addRefsLoop, href, hp]
  · intro u hp href
    simp [add_refs_for_id, h, addRefsLoop, href, hp]

/-- C9 witness: `https://example.com/a` parses under `env9`, so it contributes
exactly the creation request with description
`Rule Reference: https://example.com/a` and the attachment to `ind-1`. -/
theorem reference_attachment_witness :
    add_refs_for_id env9 ["https://example.com/a"] "ind-1" =
      Effects.append
        ⟨[.createExternalReference "Nextron Systems Valhalla API"
            "https://example.com/a"
            ("Rule Reference: " ++ "https://example.com/a"),
          .addExternalReference "ind-1"
            (env9.external_reference_create "https://example.com/a"
              ("Rule Reference: " ++ "https://example.com/a"))], []⟩
        (add_refs_for_id env9 [] "ind-1") :=
  ((reference_attachment env9 "ind-1" "https://example.com/a" [] (by decide)).2.2
    "https://example.com/a" rfl (by decide))

/-- C1 counterexample: with the signature feed failing (`env1.rules_json` is
an error) and prior state `state0`, `run` does not return the prior state — it
returns a fresh single-entry checkpoint carrying the current timestamp. -/
theorem run_feed_failure_fresh_checkpoint_cex :
    env1.rules_json = .error "connection error" ∧
    (match run env1 [] state0 with
     | .ok r => some r.checkpoint
     | .error _ => none) = some [(KNOWLEDGE_IMPORTER_STATE, 1700000000)] ∧
    [(KNOWLEDGE_IMPORTER_STATE, (1700000000 : Nat))] ≠ state0 :=
  ⟨rfl, rfl, by decide⟩

/-- C1 (amended): if the signature-feed fetch (or its schema validation) fails
and the run returns normally, then no graph-store requests are issued during
the run, and the returned checkpoint is the fresh single-entry timestamp
checkpoint — not the prior state, which is discarded. -/
theorem run_feed_failure_no_writes_fresh_checkpoint (env : Env)
    (m : AttackMapping) (state : StateMap) (e : String) (r : RunResult)
    (hf : env.rules_json = .error e) (hr : run env m state = .ok r) :
    r.requests = [] ∧ r.checkpoint = [(KNOWLEDGE_IMPORTER_STATE, env.now)] := by
  unfold run at hr
  cases hb : build_attack_group_mapping env m with
  | error eb => rw [hb] at hr; cases hr
  | ok p =>
    obtain ⟨m1, blogs⟩ := p
    rw [hb] at hr
    unfold process_rules at hr
    rw [hf] at hr
    cases hr
    exact ⟨rfl, rfl⟩

/-- The result of `run env1 [] state0`, written out. -/
def runResult1 : RunResult :=
  { checkpoint := [(KNOWLEDGE_IMPORTER_STATE, 1700000000)]
  , attack_mapping := []
  , requests := []
  , logs := [.info "running Knowledge importer with state",
             .error "error downloading rules: connection error",
             .info "knowledge importer completed"] }

theorem run_feed_failure_no_writes_fresh_checkpoint_witness :
    runResult1.requests = [] ∧
    runResult1.checkpoint = [(KNOWLEDGE_IMPORTER_STATE, env1.now)] :=
  run_feed_failure_no_writes_fresh_checkpoint env1 [] state0 "connection error"
    runResult1 rfl rfl

/-- C2 (the code contradicts the claim): with a two-signature feed whose first
signature's indicator creation fails, the loop body reads the still-unbound
local `indicator`; the resulting `NameError` is uncaught, the whole run aborts
and the second signature is never processed. -/
theorem first_signature_failure_aborts_run :
    env2.rules_json = .ok [ruleA2, ruleB2] ∧
    env2.indicator_create ruleA2 = .error "boom" ∧
    run env2 [] [] = .error "NameError: name indicator is not defined" :=
  ⟨rfl, rfl, rfl⟩

/-- C3 (the code contradicts the claim): with a two-signature feed where the
first signature's creation succeeds with id `indicator--a` and the second's
fails, the second signature's sub-steps are not skipped — its tag `zeta` is
attached to the previous iteration's indicator id `indicator--a`. -/
theorem failed_create_reuses_previous_indicator_id :
    env3.indicator_create ruleB2 = .error "boom" ∧
    env3.indicator_create ruleA2 = .ok "indicator--a" ∧
    ruleB2.tags = ["zeta"] ∧ ruleA2.tags = [] ∧
    Request.addTag "indicator--a" "tag--zeta" ∈
      ((run env3 [] []).toOption.map RunResult.requests).getD [] := by
  refine ⟨rfl, rfl, rfl, rfl, ?_⟩
  decide

/-- C4 counterexample: a second run whose taxonomy dataset is empty still sees
the `G0099` entry that the first run inserted into the class-level mapping —
the mapping is not rebuilt fresh and carries entries across runs and
instances. -/
theorem attack_mapping_carryover_cex :
    envB.attack_data = .ok [] ∧
    (match run envB mapAfterRunA [] with
     | .ok r => mget r.attack_mapping "G0099"
     | .error _ => none) = some "intrusion-set--old" :=
  ⟨rfl, rfl⟩

/-- C4 (amended): the external-id mapping is class-level state shared across
runs; a run's build never clears it.  The mapping before the run is a prefix
of the mapping after the build, and every entry added by the build is derived
from the taxonomy dataset fetched during that run — so entries from previous
runs persist rather than the mapping starting empty. -/
theorem attack_mapping_build_only_extends (env : Env)
    (objs : List TaxonomyObject) (m0 m : AttackMapping) (l : List LogEntry)
    (hf : env.attack_data = .ok objs)
    (hb : build_attack_group_mapping env m0 = .ok (m, l)) :
    m0.isPrefixOf m = true ∧
    ∀ p ∈ m.drop m0.length,
      ∃ obj ∈ objs, contributesB obj p.1 = true ∧ obj.id = p.2 := by
  unfold build_attack_group_mapping at hb
  simp only [hf] at hb
  cases hbl : buildLoop m0 objs with
  | error e => rw [hbl] at hb; cases hb
  | ok m1 =>
    rw [hbl] at hb
    simp only [Except.map, Except.ok.injEq, Prod.mk.injEq] at hb
    rw [← hb.1]
    obtain ⟨s, hs, hp⟩ := buildLoop_extends objs m0 m1 hbl
    subst hs
    constructor
    · simp
    · intro p hps
      rw [List.drop_left] at hps
      exact hp p hps

theorem attack_mapping_build_only_extends_witness :
    mapOld.isPrefixOf mapOld = true ∧
    ∀ p ∈ mapOld.drop mapOld.length,
      ∃ obj ∈ ([] : List TaxonomyObject),
        contributesB obj p.1 = true ∧ obj.id = p.2 :=
  attack_mapping_build_only_extends envB [] mapOld mapOld [] rfl rfl

/-- C5: after building the index from a taxonomy dataset (into an empty
mapping), the index has an entry for external id `E` iff some object of type
`attack-pattern` or `intrusion-set` has `external_references[0].external_id`
equal to the non-empty `E` and a non-empty object id; and the entry holds the
object id of the last such object in iteration order (last write wins). -/
theorem attack_mapping_membership_last_write_wins (env : Env)
    (objs : List TaxonomyObject) (m : AttackMapping) (l : List LogEntry)
    (E : String)
    (hf : env.attack_data = .ok objs)
    (hb : build_attack_group_mapping env [] = .ok (m, l)) :
    ((mget m E).isSome ↔ ∃ obj ∈ objs, contributesB obj E = true) ∧
    mget m E =
      ((objs.filter (fun o => contributesB o E)).getLast?).map TaxonomyObject.id := by
  unfold build_attack_group_mapping at hb
  simp only [hf] at hb
  cases hbl : buildLoop [] objs with
  | error e => rw [hbl] at hb; cases hb
  | ok m1 =>
    rw [hbl] at hb
    simp only [Except.map, Except.ok.injEq, Prod.mk.injEq] at hb
    rw [← hb.1]
    have hm := buildLoop_mget E objs [] m1 hbl
    have heq : mget m1 E =
        ((objs.filter (fun o => contributesB o E)).getLast?).map TaxonomyObject.id := by
      rw [hm]
      cases (objs.filter (fun o => contributesB o E)).getLast? <;> rfl
    refine ⟨?_, heq⟩
    rw [heq]
    constructor
    · intro hsome
      cases hgl : (objs.filter (fun o => contributesB o E)).getLast? with
      | none => rw [hgl] at hsome; cases hsome
      | some y =>
        have hy : y ∈ objs.filter (fun o => contributesB o E) :=
          List.mem_of_getLast?_eq_some hgl
        obtain ⟨hyo, hyc⟩ := List.mem_filter.mp hy
        exact ⟨y, hyo, hyc⟩
    · rintro ⟨o, ho, hc⟩
      have hne : objs.filter (fun o => contributesB o E) ≠ [] :=
        List.ne_nil_of_mem (List.mem_filter.mpr ⟨ho, hc⟩)
      have := List.getLast?_isSome.mpr hne
      simp only [Option.isSome_map']
      exact this

theorem attack_mapping_membership_last_write_wins_witness :
    ((mget map5 "T0001").isSome ↔
      ∃ obj ∈ [objFirst, objSecond], contributesB obj "T0001" = true) ∧
    mget map5 "T0001" =
      (([objFirst, objSecond].filter
        (fun o => contributesB o "T0001")).getLast?).map TaxonomyObject.id :=
  attack_mapping_membership_last_write_wins env5 [objFirst, objSecond] map5 []
    "T0001" rfl rfl

/-- C6: a failure of the taxonomy fetch or parse is never fatal to the run —
it is caught and logged, the mapping is left as it was, and the run reduces
exactly to the remaining steps (signature processing and checkpoint return). -/
theorem taxonomy_failure_not_fatal (env : Env) (m : AttackMapping)
    (state : StateMap) (e : String) (hf : env.attack_data = .error e) :
    run env m state = (process_rules env m).map (fun eff =>
      { checkpoint := [(KNOWLEDGE_IMPORTER_STATE, env.now)]
      , attack_mapping := m
      , requests := eff.requests
      , logs := [.info "running Knowledge importer with state",
          .error ("error downloading attack data: " ++ e)] ++ eff.logs
          ++ [.info "knowledge importer completed"] }) := by
  unfold run build_attack_group_mapping
  simp only [hf]
  cases process_rules env m <;> rfl

theorem taxonomy_failure_not_fatal_witness :
    run env6 [] [] = (process_rules env6 []).map (fun eff =>
      { checkpoint := [(KNOWLEDGE_IMPORTER_STATE, env6.now)]
      , attack_mapping := []
      , requests := eff.requests
      , logs := [.info "running Knowledge importer with state",
          .error ("error downloading attack data: " ++ "http 500")] ++ eff.logs
          ++ [.info "knowledge importer completed"] }) :=
  taxonomy_failure_not_fatal env6 [] [] "http 500" rfl

/-- C10 (implicit): the mapping build reads `external_references[0]` of every
recognized-type object outside the fetch/parse `try` block, so the build is
total exactly under the precondition that every such object has a non-empty
reference list; a recognized-type object with no external references makes the
uncaught `IndexError` branch reachable and aborts the whole run. -/
theorem unguarded_reference_access (env : Env) (objs : List TaxonomyObject)
    (m : AttackMapping)
    (hf : env.attack_data = .ok objs)
    (hall : ∀ obj ∈ objs,
      (obj.type = "attack-pattern" ∨ obj.type = "intrusion-set") →
      obj.external_references ≠ []) :
    isOkE (build_attack_group_mapping env m) = true ∧
    run envNoRefs [] [] = .error "IndexError: list index out of range" := by
  constructor
  · unfold build_attack_group_mapping
    simp only [hf]
    obtain ⟨m1, hm1⟩ := buildLoop_total objs hall m
    rw [hm1]
    rfl
  · rfl

theorem unguarded_reference_access_witness :
    isOkE (build_attack_group_mapping envGood []) = true ∧
    run envNoRefs [] [] = .error "IndexError: list index out of range" :=
  unguarded_reference_access envGood [objGood] [] rfl (by decide)

end Valhalla
